import Mathlib

/-
Verification of the Report component of App-Owns-Data-Starter-Kit
(src/AppOwnsDataReactClient/App/components/pages/Report.tsx).

The component is shallowly embedded: component state is an explicit record,
the token-expiration monitor and the embed-mode selection are pure functions,
the lifecycle-event handlers of an embedded existing report are a step
function over the mutable closure variables they share, and JavaScript null
dereferences are modelled with Except.  Milliseconds and timestamps are Int
(JavaScript Date.getTime values); strings are Lean Strings.
-/

namespace AppOwnsData

/-- A report descriptor as used by Report.tsx (models/models.ts shape,
reconstructed from the fields Report.tsx reads). -/
structure PowerBiReport where
  id : String
  name : String
  embedUrl : String
  reportType : String
  datasetId : String
deriving DecidableEq, Repr

/-- A dataset descriptor as used by Report.tsx. -/
structure PowerBiDataset where
  id : String
  name : String
  createReportEmbedURL : String
deriving DecidableEq, Repr

/-- The embedding context provided by AppContext, with the fields Report.tsx
reads.  `reports` and `datasets` are Option because the component guards them
with optional chaining (lines 440 and 451). -/
structure EmbeddingData where
  tenantName : Option String
  userCanEdit : Bool
  userCanCreate : Bool
  reports : Option (List PowerBiReport)
  datasets : Option (List PowerBiDataset)
  workspaceArtifactsLoading : Bool
deriving DecidableEq, Repr

/-- The MSAL account object, with the fields read by the logging helpers. -/
structure AccountInfo where
  username : String
  name : String
deriving DecidableEq, Repr

/-- The result of AppOwnsDataWebApi.GetEmbedToken (spec section 6). -/
structure TokenResult where
  embedToken : String
  embedTokenExpiration : String
deriving DecidableEq, Repr

/-- A handle to an embedded report returned by the Power BI SDK; the only
operation the claims need is setAccessToken, recorded as an action. -/
structure EmbeddedHandle where
  handleId : String
deriving DecidableEq, Repr

/-- The component state relevant to token refresh (useState hooks,
lines 40-46). -/
structure ComponentState where
  embedToken : Option String
  embedTokenExpiration : Option String
  embedTokenAcquired : Bool
  embedTokenExpirationDisplay : String
  embeddedReport : Option EmbeddedHandle
  embeddedNewReport : Option EmbeddedHandle
deriving DecidableEq, Repr

/-- Observable side effects issued by the component, used to state which
backend / SDK calls a code path performs. -/
inductive EffectAction
  | consoleLog (msg : String)
  | navigate (path : String)
  | backendGetEmbedToken
  | setReportAccessToken (token : String)
  | setNewReportAccessToken (token : String)
deriving DecidableEq, Repr

/-- secondsToExpire (line 405): Math.floor of the millisecond difference
divided by 1000; Math.floor on an exact ratio of integers is floor
division. -/
def secondsToExpire (expirationMs nowMs : Int) : Int :=
  Int.fdiv (expirationMs - nowMs) 1000

/-- String(n).padStart(2, "0") (line 415). -/
def padStart2 (s : String) : String :=
  if s.length < 2 then String.mk (List.replicate (2 - s.length) '0') ++ s else s

/-- The "Token Expiration: MM:SS" string built on lines 413-415.  JavaScript
`/ 60` under Math.floor is floor division and `% 60` agrees with emod on the
non-negative values this branch handles (the guard gives secs >= 120). -/
def formatTimeToExpire (secs : Int) : String :=
  "Token Expiration: " ++ padStart2 (toString (Int.fdiv secs 60)) ++ ":"
    ++ padStart2 (toString (Int.emod secs 60))

/-- Lines 415-416: the freshly formatted string, with a trailing space
appended when it equals the current display value. -/
def displayAfterTick (currentDisplay : String) (secs : Int) : String :=
  let timeToExpire := formatTimeToExpire secs
  if timeToExpire = currentDisplay then timeToExpire ++ " " else timeToExpire

/-- The outcome of one invocation of monitorTokenExpiration: either
refreshEmbedToken() is invoked, or the display state is set. -/
inductive MonitorAction
  | refresh
  | setDisplay (newDisplay : String)
deriving DecidableEq, Repr

/-- monitorTokenExpiration (lines 403-419) as a function of the current
display state, the parsed expiration timestamp and the current time. -/
def monitorTokenExpiration (currentDisplay : String) (expirationMs nowMs : Int) :
    MonitorAction :=
  let secs := secondsToExpire expirationMs nowMs
  if secs < 120 then MonitorAction.refresh
  else MonitorAction.setDisplay (displayAfterTick currentDisplay secs)

/-- refreshEmbedToken (lines 385-401): requests a token from the backend,
stores token and expiration, sets the display to "refreshing embed token",
and calls setAccessToken on each of the two embed handles that is non-null.
The nested monitorTokenExpiration call on the fresh expiration (line 391)
is a separate monitorTokenExpiration step. -/
def refreshEmbedToken (s : ComponentState) (tr : TokenResult) :
    ComponentState × List EffectAction :=
  ({ s with
      embedToken := some tr.embedToken
      embedTokenExpiration := some tr.embedTokenExpiration
      embedTokenExpirationDisplay := "refreshing embed token" },
    [EffectAction.backendGetEmbedToken]
      ++ (match s.embeddedReport with
          | some _ => [EffectAction.setReportAccessToken tr.embedToken]
          | none => [])
      ++ (match s.embeddedNewReport with
          | some _ => [EffectAction.setNewReportAccessToken tr.embedToken]
          | none => []))

/-- The timer scheduled by the effect on lines 462-468: a 1000 ms timeout
that will invoke monitorTokenExpiration with the stored expiration. -/
structure TimerAction where
  delayMs : Nat
  monitorArg : Option String
deriving DecidableEq, Repr

/-- The token-expiration effect body (lines 462-468): schedules the timer
exactly when the user is authenticated and a token has been acquired. -/
def tokenExpirationEffect (isAuthenticated : Bool) (s : ComponentState) :
    Option TimerAction :=
  if isAuthenticated && s.embedTokenAcquired then
    some { delayMs := 1000, monitorArg := s.embedTokenExpiration }
  else none

/-- The dependency array of the token-expiration effect (line 468); React
re-runs the effect exactly when this tuple differs from the previous
render's tuple. -/
def tokenEffectDeps (isAuthenticated : Bool) (s : ComponentState) :
    Bool × Bool × Option String × String :=
  (isAuthenticated, s.embedTokenAcquired, s.embedTokenExpiration,
    s.embedTokenExpirationDisplay)

/-- setEmbedTokenExpirationDisplay (line 417) applied to the component
state. -/
def setDisplayState (s : ComponentState) (d : String) : ComponentState :=
  { s with embedTokenExpirationDisplay := d }

/-- embeddingData.reports?.find((report) => report.id === id) (line 440):
optional chaining yields no match when reports is null; `id` from useParams
may be undefined. -/
def findReportById (reports : Option (List PowerBiReport)) (id : Option String) :
    Option PowerBiReport :=
  match reports with
  | none => none
  | some rs => rs.find? (fun r => decide (some r.id = id))

/-- embeddingData.datasets?.find((dataset) => dataset.id === id)
(line 451). -/
def findDatasetById (datasets : Option (List PowerBiDataset)) (id : Option String) :
    Option PowerBiDataset :=
  match datasets with
  | none => none
  | some ds => ds.find? (fun d => decide (some d.id = id))

/-- Which of the embedding paths the effect on lines 430-459 takes. -/
inductive EmbedDecision
  | getToken
  | existingReport (r : PowerBiReport)
  | paginatedReport (r : PowerBiReport)
  | newReport (d : PowerBiDataset)
  | noEmbed
deriving DecidableEq, Repr

/-- The embed effect (lines 430-459): guarded by authentication, the embed
container ref and a loaded tenant name; first acquires the token, then
embeds a matching report (existing vs paginated by its reportType), then a
matching dataset, else nothing. -/
def embedEffect (isAuthenticated containerPresent : Bool) (ed : EmbeddingData)
    (embedTokenAcquired : Bool) (id : Option String) : EmbedDecision :=
  if isAuthenticated && containerPresent && ed.tenantName.isSome then
    if !embedTokenAcquired then EmbedDecision.getToken
    else
      match findReportById ed.reports id with
      | some r =>
          if r.reportType = "PowerBIReport" then EmbedDecision.existingReport r
          else EmbedDecision.paginatedReport r
      | none =>
          match findDatasetById ed.datasets id with
          | some d => EmbedDecision.newReport d
          | none => EmbedDecision.noEmbed
  else EmbedDecision.noEmbed

/-- The activity names logged to the backend by Report.tsx. -/
inductive Activity
  | ViewReport
  | PageChanged
  | EditReport
  | CopyReport
  | CreateReport
deriving DecidableEq, Repr

/-- Backend activity-log calls issued directly inside the embed effect path
for a decision: embedPaginatedReport awaits logViewReportActivity inline
(line 228); the other modes log only from lifecycle-event handlers. -/
def immediateActivities : EmbedDecision → List Activity
  | EmbedDecision.paginatedReport _ => [Activity.ViewReport]
  | _ => []

/-- models.Permissions values used on lines 82-95. -/
inductive Permissions
  | All
  | ReadWrite
  | Copy
  | Read
deriving DecidableEq, Repr

/-- The permissions chain of embedExistingReport (lines 82-95).  A null
embeddingData throws on line 84 (embeddingData.userCanEdit), modelled as
Except.error; in the some case the `embeddingData &&` test of the second
branch is truthy.  When no branch fires the variable stays undefined
(Option.none). -/
def reportPermissions : Option EmbeddingData → Except Unit (Option Permissions)
  | none => Except.error ()
  | some d =>
      Except.ok
        (if d.userCanEdit && d.userCanCreate then some Permissions.All
         else if !d.userCanCreate then some Permissions.ReadWrite
         else if !d.userCanEdit && d.userCanCreate then some Permissions.Copy
         else if !d.userCanEdit && !d.userCanCreate then some Permissions.Read
         else none)

/-- models.ViewMode values used on line 103. -/
inductive EmbedViewMode
  | View
  | Edit
deriving DecidableEq, Repr

/-- The UI state set by embedExistingReport before embedding, plus the
viewMode written into the embed configuration (lines 62-73 and 103). -/
structure ExistingReportSetup where
  editMode : Bool
  configViewMode : EmbedViewMode
  showNavigation : Bool
  showFiltersPane : Bool
  showBookmarksPane : Bool
deriving DecidableEq, Repr

/-- params.get('edit') === "true" (line 63); the query parameter is null
when absent. -/
def openInEditMode (editParam : Option String) : Bool :=
  decide (editParam = some "true")

/-- embedExistingReport state setup (lines 62-73) and config.viewMode
(line 103). -/
def embedExistingReportSetup (editParam : Option String) : ExistingReportSetup :=
  let e := openInEditMode editParam
  { editMode := e
    configViewMode := if e then EmbedViewMode.Edit else EmbedViewMode.View
    showNavigation := true
    showFiltersPane := false
    showBookmarksPane := false }

/-- The three pages the component can render (lines 470-499). -/
inductive RenderedPage
  | pageNotAccessible
  | dataLoading
  | reportPage
deriving DecidableEq, Repr

/-- The render branch of the component (lines 470-477). -/
def renderPage (isAuthenticated workspaceArtifactsLoading : Bool) : RenderedPage :=
  if !isAuthenticated then RenderedPage.pageNotAccessible
  else if workspaceArtifactsLoading then RenderedPage.dataLoading
  else RenderedPage.reportPage

/-- The error handler attached on lines 186-189: console output only. -/
def existingReportErrorHandler (s : ComponentState) : ComponentState × List EffectAction :=
  (s, [EffectAction.consoleLog "ERROR in embedded report"])

/-- The error handler attached on lines 230-233: console output only. -/
def paginatedReportErrorHandler (s : ComponentState) : ComponentState × List EffectAction :=
  (s, [EffectAction.consoleLog "ERROR in paginated report"])

/-- The error handler attached on lines 282-285: console output only. -/
def newReportErrorHandler (s : ComponentState) : ComponentState × List EffectAction :=
  (s, [EffectAction.consoleLog "ERROR in embedded report"])

/-- Lifecycle events delivered by the embedding SDK to the handlers that
embedExistingReport registers (lines 131-189). -/
inductive ReportEvent
  | loaded
  | rendered
  | pageChanged
  | saved (saveAs : Bool)
  | errorEvt
deriving DecidableEq, Repr

/-- The mutable closure variables shared by the handlers of
embedExistingReport (lines 119-120). -/
structure HandlerState where
  initialLoadComplete : Bool
  pageChangeInProgress : Bool
deriving DecidableEq, Repr

/-- Closure state at the moment the handlers are registered (lines
119-120). -/
def initialHandlerState : HandlerState :=
  { initialLoadComplete := false, pageChangeInProgress := false }

/-- One handler invocation of the embedded existing report (lines 131-189),
returning the updated closure state and the activities it logs, in order.
The rendered handler (137-154) runs its two ifs sequentially: the first one
logs ViewReport and sets initialLoadComplete, the second one consumes
pageChangeInProgress and logs PageChanged.  The pageChanged handler
(157-165) only arms pageChangeInProgress once the initial load completed.
The saved handler (168-184) logs CopyReport on save-as and EditReport on a
plain save (its token refresh and navigation are modelled separately).
Durations and timer bookkeeping do not affect which activities are
logged. -/
def handleEvent : HandlerState → ReportEvent → HandlerState × List Activity
  | s, ReportEvent.loaded => (s, [])
  | s, ReportEvent.rendered =>
      let r1 : HandlerState × List Activity :=
        if !s.initialLoadComplete then
          ({ s with initialLoadComplete := true }, [Activity.ViewReport])
        else (s, [])
      if r1.1.pageChangeInProgress then
        ({ r1.1 with pageChangeInProgress := false }, r1.2 ++ [Activity.PageChanged])
      else r1
  | s, ReportEvent.pageChanged =>
      if s.initialLoadComplete then
        ({ s with pageChangeInProgress := true }, [])
      else (s, [])
  | s, ReportEvent.saved saveAs =>
      (s, [if saveAs then Activity.CopyReport else Activity.EditReport])
  | s, ReportEvent.errorEvt => (s, [])

/-- Runs a sequence of lifecycle events through the handlers, collecting
the logged activities in order. -/
def runEvents : HandlerState → List ReportEvent → HandlerState × List Activity
  | s, [] => (s, [])
  | s, e :: es =>
      let r1 := handleEvent s e
      let r2 := runEvents r1.1 es
      (r2.1, r1.2 ++ r2.2)

/-- The events strictly after the first rendered event of a trace. -/
def afterFirstRendered (es : List ReportEvent) : List ReportEvent :=
  (es.dropWhile (fun e => decide (e ≠ ReportEvent.rendered))).drop 1

/-- Predicate for the two activities the rendered handler logs. -/
def isRenderLogged (a : Activity) : Bool :=
  a == Activity.ViewReport || a == Activity.PageChanged

/-- An activity-log entry.  Modelled from the spec: the ActivityLogEntry
class lives in models/models.ts, which is not among the sources; the spec
describes it as a simple DTO with no invariants beyond field presence, so
every field is optional and starts unset, and Report.tsx assigns the fields
below. -/
structure ActivityLogEntry where
  CorrelationId : Option String := none
  Activity : Option String := none
  LoginId : Option String := none
  User : Option String := none
  Tenant : Option String := none
  Report : Option String := none
  ReportId : Option String := none
  ReportType : Option String := none
  PageName : Option String := none
  DatasetId : Option String := none
  Dataset : Option String := none
  OriginalReportId : Option String := none
  LoadDuration : Option Int := none
  RenderDuration : Option Int := none
deriving DecidableEq, Repr

/-- embeddingData.datasets.find((dataset) => dataset.id === datasetId)
without optional chaining on datasets (lines 310, 328, 344, 359): a null
datasets throws. -/
def findDatasetFor (datasets : Option (List PowerBiDataset)) (datasetId : String) :
    Except Unit (Option PowerBiDataset) :=
  match datasets with
  | none => Except.error ()
  | some ds => Except.ok (ds.find? (fun d => decide (d.id = datasetId)))

/-- Reading .name without optional chaining (lines 344, 359): throws when
the lookup found nothing. -/
def datasetName : Option PowerBiDataset → Except Unit String
  | none => Except.error ()
  | some d => Except.ok d.name

/-- logViewReportActivity (lines 298-314).  The correlationId argument is
"" for paginated reports (line 228) and the getCorrelationId value in the
rendered handler (lines 141-143).  Line 310 reads ?.name on the dataset
lookup but dereferences datasets itself. -/
def logViewReportActivity (account : AccountInfo) (ed : EmbeddingData)
    (correlationId : String) (report : PowerBiReport) (pageName : String)
    (loadDuration renderDuration : Option Int) : Except Unit ActivityLogEntry :=
  (findDatasetFor ed.datasets report.datasetId).map (fun ds =>
    { CorrelationId := some correlationId
      Activity := some "ViewReport"
      LoginId := some account.username
      User := some account.name
      Tenant := ed.tenantName
      Report := some report.name
      ReportId := some report.id
      ReportType := some report.reportType
      PageName := some pageName
      DatasetId := some report.datasetId
      Dataset := ds.map PowerBiDataset.name
      LoadDuration := loadDuration
      RenderDuration := renderDuration })

/-- logPageChangedActivity (lines 316-331). -/
def logPageChangedActivity (account : AccountInfo) (ed : EmbeddingData)
    (correlationId : String) (report : PowerBiReport) (pageName : String)
    (renderDuration : Option Int) : Except Unit ActivityLogEntry :=
  (findDatasetFor ed.datasets report.datasetId).map (fun ds =>
    { CorrelationId := some correlationId
      Activity := some "PageChanged"
      LoginId := some account.username
      User := some account.name
      Tenant := ed.tenantName
      Report := some report.name
      ReportId := some report.id
      ReportType := some report.reportType
      PageName := some pageName
      DatasetId := some report.datasetId
      Dataset := ds.map PowerBiDataset.name
      RenderDuration := renderDuration })

/-- logEditReportActivity (lines 333-346): CorrelationId is the empty
string (line 335) and line 344 reads .name without optional chaining. -/
def logEditReportActivity (account : AccountInfo) (ed : EmbeddingData)
    (report : PowerBiReport) : Except Unit ActivityLogEntry :=
  (findDatasetFor ed.datasets report.datasetId).bind (fun ds =>
    (datasetName ds).map (fun dsName =>
      { CorrelationId := some ""
        Activity := some "EditReport"
        LoginId := some account.username
        User := some account.name
        Tenant := ed.tenantName
        Report := some report.name
        ReportId := some report.id
        ReportType := some "PowerBIReport"
        DatasetId := some report.datasetId
        Dataset := some dsName }))

/-- logCopyReportActivity (lines 348-361): no assignment to CorrelationId,
which therefore keeps its unset default. -/
def logCopyReportActivity (account : AccountInfo) (ed : EmbeddingData)
    (orginalReport : PowerBiReport) (reportId reportName : String) :
    Except Unit ActivityLogEntry :=
  (findDatasetFor ed.datasets orginalReport.datasetId).bind (fun ds =>
    (datasetName ds).map (fun dsName =>
      { Activity := some "CopyReport"
        LoginId := some account.username
        User := some account.name
        Tenant := ed.tenantName
        Report := some reportName
        ReportId := some reportId
        ReportType := some "PowerBIReport"
        OriginalReportId := some orginalReport.id
        DatasetId := some orginalReport.datasetId
        Dataset := some dsName }))

/-- logCreateReportActivity (lines 363-375). -/
def logCreateReportActivity (account : AccountInfo) (ed : EmbeddingData)
    (dataset : PowerBiDataset) (reportId reportName : String) : ActivityLogEntry :=
  { Activity := some "CreateReport"
    LoginId := some account.username
    User := some account.name
    Tenant := ed.tenantName
    Report := some reportName
    ReportId := some reportId
    ReportType := some "PowerBIReport"
    DatasetId := some dataset.id
    Dataset := some dataset.name }

/-- Which handlers ended up registered on the newly created embed by
embedNewReport. -/
structure NewReportWiring where
  savedOnNewReport : Bool
  errorOnNewReport : Bool
deriving DecidableEq, Repr

/-- A JavaScript method call on a possibly-null object: a TypeError aborts
the surrounding function. -/
def offOnStateVariable (target : Option EmbeddedHandle) : Except Unit Unit :=
  match target with
  | none => Except.error ()
  | some _ => Except.ok ()

/-- The handler wiring of embedNewReport (lines 266-285) as a function of
the embeddedReport state variable captured by the closure.  Both off calls
(lines 271 and 282) target that state variable, not the embed returned by
createReport; the on calls (lines 272 and 283) target the new embed and are
reached only if the preceding off did not throw. -/
def embedNewReportWiring (prevReport : Option EmbeddedHandle) :
    Except Unit NewReportWiring :=
  (offOnStateVariable prevReport).bind (fun _ =>
    let savedRegistered := true
    (offOnStateVariable prevReport).bind (fun _ =>
      Except.ok { savedOnNewReport := savedRegistered, errorOnNewReport := true }))

/-- Sample embedded-report handle for concrete witnesses. -/
def sampleHandle : EmbeddedHandle := { handleId := "h1" }

/-- Sample component state for concrete witnesses. -/
def sampleState : ComponentState :=
  { embedToken := some "tok"
    embedTokenExpiration := some "2026-01-01T00:05:00Z"
    embedTokenAcquired := true
    embedTokenExpirationDisplay := ""
    embeddedReport := some sampleHandle
    embeddedNewReport := none }

/-- Sample backend token result for concrete witnesses. -/
def sampleTokenResult : TokenResult :=
  { embedToken := "tok2", embedTokenExpiration := "2026-01-01T00:10:00Z" }

/-- Sample dataset for concrete witnesses. -/
def sampleDataset : PowerBiDataset :=
  { id := "ds1", name := "Sales", createReportEmbedURL := "https://c" }

/-- Sample report for concrete witnesses. -/
def sampleReport : PowerBiReport :=
  { id := "r1", name := "Sales Report", embedUrl := "https://e"
    reportType := "PowerBIReport", datasetId := "ds1" }

/-- Sample paginated report for concrete witnesses. -/
def samplePaginatedReport : PowerBiReport :=
  { id := "r2", name := "Invoices", embedUrl := "https://p"
    reportType := "PaginatedReport", datasetId := "ds1" }

/-- Sample account for concrete witnesses. -/
def sampleAccount : AccountInfo := { username := "user@contoso.com", name := "User" }

/-- Sample embedding data for concrete witnesses. -/
def sampleEmbeddingData : EmbeddingData :=
  { tenantName := some "Contoso"
    userCanEdit := true
    userCanCreate := false
    reports := some [sampleReport, samplePaginatedReport]
    datasets := some [sampleDataset]
    workspaceArtifactsLoading := false }

/-- Appending a space always changes a string. -/
theorem append_space_ne (str : String) : str ++ " " ≠ str := by
  intro e
  have h := congrArg String.length e
  rw [String.length_append] at h
  have h1 : (" " : String).length = 1 := rfl
  omega

/-- The display value written on a non-refresh tick differs from the current
display value (this is what the trailing space on line 416 achieves). -/
theorem displayAfterTick_ne (cur : String) (secs : Int) :
    displayAfterTick cur secs ≠ cur := by
  by_cases hf : formatTimeToExpire secs = cur
  · simpa [displayAfterTick, hf] using append_space_ne cur
  · simp [displayAfterTick, hf]

/-- C1 counterexample: with 300 whole seconds to expiry and the display
already holding the freshly formatted string, monitorTokenExpiration does
not set the display to the plain "Token Expiration: MM:SS" string the claim
describes (it appends a trailing space, line 416). -/
theorem C1_counterexample :
    monitorTokenExpiration "Token Expiration: 05:00" 300000 0
      ≠ MonitorAction.setDisplay (formatTimeToExpire (secondsToExpire 300000 0)) := by
  decide

/-- C1 (amended): if the whole number of seconds to expiry is below 120,
monitorTokenExpiration invokes refreshEmbedToken; refreshEmbedToken requests
a token from the backend, stores embedToken and embedTokenExpiration, and
calls setAccessToken on the embedded report respectively embedded new report
exactly when that handle is non-null; otherwise no refresh happens and the
display is set to the formatted "Token Expiration: MM:SS" string, with a
trailing space appended when that string equals the current display; and
while authenticated with a token acquired, the effect schedules a one-second
timer that re-invokes monitorTokenExpiration with the stored expiration. -/
theorem C1_token_refresh_cycle (cur : String) (expMs nowMs : Int)
    (s : ComponentState) (tr : TokenResult) :
    (secondsToExpire expMs nowMs < 120 →
        monitorTokenExpiration cur expMs nowMs = MonitorAction.refresh)
    ∧ ((refreshEmbedToken s tr).2.head? = some EffectAction.backendGetEmbedToken
        ∧ (refreshEmbedToken s tr).1.embedToken = some tr.embedToken
        ∧ (refreshEmbedToken s tr).1.embedTokenExpiration = some tr.embedTokenExpiration
        ∧ (s.embeddedReport.isSome = true →
            EffectAction.setReportAccessToken tr.embedToken ∈ (refreshEmbedToken s tr).2)
        ∧ (s.embeddedReport = none →
            ∀ t, EffectAction.setReportAccessToken t ∉ (refreshEmbedToken s tr).2)
        ∧ (s.embeddedNewReport.isSome = true →
            EffectAction.setNewReportAccessToken tr.embedToken
              ∈ (refreshEmbedToken s tr).2)
        ∧ (s.embeddedNewReport = none →
            ∀ t, EffectAction.setNewReportAccessToken t ∉ (refreshEmbedToken s tr).2))
    ∧ (120 ≤ secondsToExpire expMs nowMs →
        monitorTokenExpiration cur expMs nowMs =
          MonitorAction.setDisplay (displayAfterTick cur (secondsToExpire expMs nowMs))
        ∧ (formatTimeToExpire (secondsToExpire expMs nowMs) ≠ cur →
            displayAfterTick cur (secondsToExpire expMs nowMs)
              = formatTimeToExpire (secondsToExpire expMs nowMs))
        ∧ (formatTimeToExpire (secondsToExpire expMs nowMs) = cur →
            displayAfterTick cur (secondsToExpire expMs nowMs)
              = formatTimeToExpire (secondsToExpire expMs nowMs) ++ " "))
    ∧ (∀ auth : Bool, auth = true → s.embedTokenAcquired = true →
        tokenExpirationEffect auth s
          = some { delayMs := 1000, monitorArg := s.embedTokenExpiration }) := by
  refine ⟨?_, ⟨?_, ?_, ?_, ?_, ?_, ?_, ?_⟩, ?_, ?_⟩
  · intro h
    simp [monitorTokenExpiration, h]
  · cases s.embeddedReport <;> cases s.embeddedNewReport <;> simp [refreshEmbedToken]
  · simp [refreshEmbedToken]
  · simp [refreshEmbedToken]
  · intro h
    rcases hr : s.embeddedReport with _ | r
    · rw [hr] at h; simp at h
    · simp [refreshEmbedToken, hr]
  · intro h t
    simp [refreshEmbedToken, h]
    cases s.embeddedNewReport <;> simp
  · intro h
    rcases hr : s.embeddedNewReport with _ | r
    · rw [hr] at h; simp at h
    · simp [refreshEmbedToken, hr]
  · intro h t
    simp [refreshEmbedToken, h]
    cases s.embeddedReport <;> simp
  · intro h
    have hnl : ¬ (secondsToExpire expMs nowMs < 120) := not_lt.mpr h
    refine ⟨by simp [monitorTokenExpiration, hnl], ?_, ?_⟩
    · intro hne; simp [displayAfterTick, hne]
    · intro heq; simp [displayAfterTick, heq]
  · intro auth ha hb
    simp [tokenExpirationEffect, ha, hb]

/-- C1 witness: the amended theorem applied at concrete inputs. -/
theorem C1_witness :
    monitorTokenExpiration "" 100000 0 = MonitorAction.refresh
      ∧ EffectAction.setReportAccessToken "tok2"
          ∈ (refreshEmbedToken sampleState sampleTokenResult).2
      ∧ tokenExpirationEffect true sampleState
          = some { delayMs := 1000, monitorArg := some "2026-01-01T00:05:00Z" } := by
  have h := C1_token_refresh_cycle "" 100000 0 sampleState sampleTokenResult
  exact ⟨h.1 (by decide), h.2.1.2.2.2.1 (by decide), h.2.2.2 true rfl (by decide)⟩

/-- C10: whenever at least 120 seconds remain, monitorTokenExpiration sets
the display to a value different from the current display (appending a
trailing space when the formatted string coincides with it), so the
dependency tuple of the one-second polling effect changes and the effect
re-runs. -/
theorem C10_display_tick_changes (s : ComponentState) (expMs nowMs : Int) (auth : Bool)
    (h : 120 ≤ secondsToExpire expMs nowMs) :
    monitorTokenExpiration s.embedTokenExpirationDisplay expMs nowMs
      = MonitorAction.setDisplay
          (displayAfterTick s.embedTokenExpirationDisplay (secondsToExpire expMs nowMs))
    ∧ displayAfterTick s.embedTokenExpirationDisplay (secondsToExpire expMs nowMs)
        ≠ s.embedTokenExpirationDisplay
    ∧ tokenEffectDeps auth
        (setDisplayState s
          (displayAfterTick s.embedTokenExpirationDisplay (secondsToExpire expMs nowMs)))
        ≠ tokenEffectDeps auth s := by
  have hnl : ¬ (secondsToExpire expMs nowMs < 120) := not_lt.mpr h
  have hne := displayAfterTick_ne s.embedTokenExpirationDisplay (secondsToExpire expMs nowMs)
  refine ⟨by simp [monitorTokenExpiration, hnl], hne, ?_⟩
  intro e
  simp [tokenEffectDeps, setDisplayState] at e
  exact hne e

/-- C10 witness: the theorem applied at a concrete state and time. -/
theorem C10_witness :
    displayAfterTick sampleState.embedTokenExpirationDisplay (secondsToExpire 300000 0)
      ≠ sampleState.embedTokenExpirationDisplay :=
  (C10_display_tick_changes sampleState 300000 0 true (by decide)).2.1

/-- C2: when authenticated with the container present, tenant data loaded and
the token acquired, a URL id matching a report embeds it (existing report for
reportType "PowerBIReport", paginated report otherwise, regardless of any
dataset match), a dataset is embedded as a new report only when no report
matched, and nothing is embedded when neither matches. -/
theorem C2_embed_mode_selection (ed : EmbeddingData) (id : Option String)
    (htenant : ed.tenantName.isSome = true) :
    (∀ r, findReportById ed.reports id = some r →
        embedEffect true true ed true id =
          (if r.reportType = "PowerBIReport" then EmbedDecision.existingReport r
           else EmbedDecision.paginatedReport r))
    ∧ (∀ d, findReportById ed.reports id = none →
        findDatasetById ed.datasets id = some d →
        embedEffect true true ed true id = EmbedDecision.newReport d)
    ∧ (findReportById ed.reports id = none →
        findDatasetById ed.datasets id = none →
        embedEffect true true ed true id = EmbedDecision.noEmbed) := by
  refine ⟨?_, ?_, ?_⟩
  · intro r hr; simp [embedEffect, htenant, hr]
  · intro d hr hd; simp [embedEffect, htenant, hr, hd]
  · intro hr hd; simp [embedEffect, htenant, hr, hd]

/-- C2 witness: the sample report is selected for its own id. -/
theorem C2_witness :
    embedEffect true true sampleEmbeddingData true (some "r1")
      = EmbedDecision.existingReport sampleReport := by
  have h := (C2_embed_mode_selection sampleEmbeddingData (some "r1") (by decide)).1
    sampleReport (by decide)
  simpa [sampleReport] using h

/-- C4: for non-null embedding data without create rights the permissions
chain yields ReadWrite whatever userCanEdit is, and the Read branch is
unreachable. -/
theorem C4_permissions (d : EmbeddingData) :
    (d.userCanCreate = false →
        reportPermissions (some d) = Except.ok (some Permissions.ReadWrite))
    ∧ (∀ p, reportPermissions (some d) = Except.ok p → p ≠ some Permissions.Read) := by
  constructor
  · intro h; simp [reportPermissions, h]
  · intro p hp
    cases he : d.userCanEdit <;> cases hc : d.userCanCreate <;>
      simp [reportPermissions, he, hc] at hp <;> simp [← hp]

/-- C4 witness: the sample embedding data (edit without create) gets
ReadWrite. -/
theorem C4_witness :
    reportPermissions (some sampleEmbeddingData)
      = Except.ok (some Permissions.ReadWrite) :=
  (C4_permissions sampleEmbeddingData).1 (by decide)

/-- C5: each of the three error handlers leaves the component state
unchanged and performs only console output. -/
theorem C5_error_handlers_pure (s : ComponentState) :
    (existingReportErrorHandler s).1 = s
    ∧ (paginatedReportErrorHandler s).1 = s
    ∧ (newReportErrorHandler s).1 = s
    ∧ (∀ a ∈ (existingReportErrorHandler s).2, ∃ m, a = EffectAction.consoleLog m)
    ∧ (∀ a ∈ (paginatedReportErrorHandler s).2, ∃ m, a = EffectAction.consoleLog m)
    ∧ (∀ a ∈ (newReportErrorHandler s).2, ∃ m, a = EffectAction.consoleLog m) := by
  refine ⟨rfl, rfl, rfl, ?_, ?_, ?_⟩ <;>
    · intro a ha
      simp [existingReportErrorHandler, paginatedReportErrorHandler,
        newReportErrorHandler] at ha
      exact ⟨_, ha⟩

/-- C5 witness: the theorem applied at the sample state. -/
theorem C5_witness :
    (existingReportErrorHandler sampleState).1 = sampleState :=
  (C5_error_handlers_pure sampleState).1

/-- C7: the embed opens in Edit view mode exactly when the edit query
parameter is the string "true", any other value or absence gives View, and
editMode is set to that same boolean. -/
theorem C7_edit_mode (editParam : Option String) :
    ((embedExistingReportSetup editParam).configViewMode = EmbedViewMode.Edit
        ↔ editParam = some "true")
    ∧ (editParam ≠ some "true" →
        (embedExistingReportSetup editParam).configViewMode = EmbedViewMode.View)
    ∧ ((embedExistingReportSetup editParam).editMode = openInEditMode editParam)
    ∧ ((embedExistingReportSetup editParam).editMode = true
        ↔ (embedExistingReportSetup editParam).configViewMode = EmbedViewMode.Edit) := by
  by_cases h : editParam = some "true" <;>
    simp [embedExistingReportSetup, openInEditMode, h]

/-- C7 witness: edit=true opens Edit, an absent parameter opens View. -/
theorem C7_witness :
    (embedExistingReportSetup (some "true")).configViewMode = EmbedViewMode.Edit
      ∧ (embedExistingReportSetup none).configViewMode = EmbedViewMode.View :=
  ⟨(C7_edit_mode (some "true")).1.mpr rfl, (C7_edit_mode none).2.1 (by decide)⟩

/-- C8: an unauthenticated render returns the PageNotAccessible page and
the embed effect neither embeds nor logs while unauthenticated; an
authenticated render with workspace artifacts still loading returns the
DataLoading page. -/
theorem C8_placeholder_pages (loading cont acq : Bool) (ed : EmbeddingData)
    (id : Option String) :
    renderPage false loading = RenderedPage.pageNotAccessible
    ∧ embedEffect false cont ed acq id = EmbedDecision.noEmbed
    ∧ immediateActivities (embedEffect false cont ed acq id) = []
    ∧ renderPage true true = RenderedPage.dataLoading := by
  refine ⟨rfl, by simp [embedEffect], ?_, rfl⟩
  simp [embedEffect, immediateActivities]

/-- C8 witness: the theorem applied at concrete inputs. -/
theorem C8_witness :
    renderPage false sampleEmbeddingData.workspaceArtifactsLoading
      = RenderedPage.pageNotAccessible :=
  (C8_placeholder_pages sampleEmbeddingData.workspaceArtifactsLoading true true
    sampleEmbeddingData (some "r1")).1

/-- C9: embedNewReport dereferences the embeddedReport state variable for
its off calls, so with no previously embedded report the call throws and
the saved and error handlers get registered on the new embed only when a
previous report existed. -/
theorem C9_new_report_off_wiring :
    embedNewReportWiring none = Except.error ()
    ∧ (∀ h : EmbeddedHandle, embedNewReportWiring (some h)
        = Except.ok { savedOnNewReport := true, errorOnNewReport := true })
    ∧ (∀ p w, embedNewReportWiring p = Except.ok w → p.isSome = true) := by
  refine ⟨rfl, fun h => rfl, ?_⟩
  intro p w hw
  cases p
  · simp [embedNewReportWiring, offOnStateVariable, Except.bind] at hw
  · rfl

/-- C9 witness: with a previously embedded report both handlers get
registered. -/
theorem C9_witness :
    embedNewReportWiring (some sampleHandle)
      = Except.ok { savedOnNewReport := true, errorOnNewReport := true } :=
  (C9_new_report_off_wiring).2.1 sampleHandle

/-- A rendered event always leaves initialLoadComplete true. -/
theorem handleEvent_rendered_ilc (s : HandlerState) :
    (handleEvent s ReportEvent.rendered).1.initialLoadComplete = true := by
  cases h1 : s.initialLoadComplete <;> cases h2 : s.pageChangeInProgress <;>
    simp [handleEvent, h1, h2]

/-- A rendered event always leaves pageChangeInProgress false. -/
theorem handleEvent_rendered_pcip (s : HandlerState) :
    (handleEvent s ReportEvent.rendered).1.pageChangeInProgress = false := by
  cases h1 : s.initialLoadComplete <;> cases h2 : s.pageChangeInProgress <;>
    simp [handleEvent, h1, h2]

/-- A pageChanged event never changes initialLoadComplete. -/
theorem handleEvent_pageChanged_ilc (s : HandlerState) :
    (handleEvent s ReportEvent.pageChanged).1.initialLoadComplete
      = s.initialLoadComplete := by
  cases h1 : s.initialLoadComplete <;> simp [handleEvent, h1]

/-- Running a concatenation of traces splits into two runs. -/
theorem runEvents_append (s : HandlerState) (l1 l2 : List ReportEvent) :
    runEvents s (l1 ++ l2)
      = ((runEvents (runEvents s l1).1 l2).1,
         (runEvents s l1).2 ++ (runEvents (runEvents s l1).1 l2).2) := by
  induction l1 generalizing s with
  | nil => simp [runEvents]
  | cons e es ih => simp [runEvents, ih (handleEvent s e).1, List.append_assoc]

/-- The state after a one-event trace. -/
theorem runEvents_singleton_state (s : HandlerState) (e : ReportEvent) :
    (runEvents s [e]).1 = (handleEvent s e).1 := by
  simp [runEvents]

/-- The output of a one-event trace. -/
theorem runEvents_singleton_acts (s : HandlerState) (e : ReportEvent) :
    (runEvents s [e]).2 = (handleEvent s e).2 := by
  simp [runEvents]

/-- initialLoadComplete after a run holds exactly when it held before or a
rendered event occurred. -/
theorem runEvents_ilc (s : HandlerState) (es : List ReportEvent) :
    (runEvents s es).1.initialLoadComplete
      = (s.initialLoadComplete || decide (ReportEvent.rendered ∈ es)) := by
  induction es generalizing s with
  | nil => simp [runEvents]
  | cons e es ih =>
    cases e with
    | rendered =>
      simp only [runEvents]
      simp [ih, handleEvent_rendered_ilc]
    | pageChanged =>
      simp only [runEvents]
      simp [ih, handleEvent_pageChanged_ilc]
    | loaded => simp only [runEvents]; simp [ih, handleEvent]
    | saved saveAs => simp only [runEvents]; simp [ih, handleEvent]
    | errorEvt => simp only [runEvents]; simp [ih, handleEvent]

/-- afterFirstRendered distributes over an appended tail once a rendered
event is present. -/
theorem afterFirstRendered_append_of_mem (p l : List ReportEvent)
    (h : ReportEvent.rendered ∈ p) :
    afterFirstRendered (p ++ l) = afterFirstRendered p ++ l := by
  induction p with
  | nil => cases h
  | cons q p ih =>
    by_cases hq : q = ReportEvent.rendered
    · subst hq
      simp [afterFirstRendered, List.dropWhile_cons]
    · have hp : ReportEvent.rendered ∈ p := by
        rcases List.mem_cons.mp h with h1 | h1
        · exact absurd h1.symm hq
        · exact h1
      have := ih hp
      simpa [afterFirstRendered, List.dropWhile_cons, hq] using this

/-- afterFirstRendered of a trace with no rendered event before the last
element is empty. -/
theorem afterFirstRendered_append_of_not_mem (p : List ReportEvent) (e : ReportEvent)
    (h : ReportEvent.rendered ∉ p) :
    afterFirstRendered (p ++ [e]) = [] := by
  induction p with
  | nil =>
    by_cases he : e = ReportEvent.rendered <;>
      simp [afterFirstRendered, List.dropWhile_cons, he]
  | cons q p ih =>
    have hq : q ≠ ReportEvent.rendered := fun hc => h (hc ▸ List.mem_cons_self q p)
    have hp : ReportEvent.rendered ∉ p := fun hc => h (List.mem_cons_of_mem q hc)
    simpa [afterFirstRendered, List.dropWhile_cons, hq] using ih hp

/-- When pageChangeInProgress holds after a run from the initial closure
state, a rendered event occurred and a pageChanged event followed the first
rendered event. -/
theorem runEvents_pcip_sound (es : List ReportEvent) :
    (runEvents initialHandlerState es).1.pageChangeInProgress = true →
      ReportEvent.rendered ∈ es
        ∧ ReportEvent.pageChanged ∈ afterFirstRendered es := by
  induction es using List.reverseRecOn with
  | nil => intro h; simp [runEvents, initialHandlerState] at h
  | append_singleton p e ih =>
    intro h
    rw [runEvents_append] at h
    simp only [runEvents_singleton_state] at h
    cases e with
    | rendered =>
      rw [handleEvent_rendered_pcip] at h
      cases h
    | pageChanged =>
      by_cases hilc : (runEvents initialHandlerState p).1.initialLoadComplete = true
      · have hrp : ReportEvent.rendered ∈ p := by
          have hi := runEvents_ilc initialHandlerState p
          rw [hilc] at hi
          simp [initialHandlerState] at hi
          exact hi
        refine ⟨List.mem_append_left _ hrp, ?_⟩
        rw [afterFirstRendered_append_of_mem p _ hrp]
        exact List.mem_append_right _ (List.mem_singleton_self _)
      · have hilc2 : (runEvents initialHandlerState p).1.initialLoadComplete = false :=
          by simpa using hilc
        have hstate : (handleEvent (runEvents initialHandlerState p).1
            ReportEvent.pageChanged).1 = (runEvents initialHandlerState p).1 := by
          simp [handleEvent, hilc2]
        rw [hstate] at h
        obtain ⟨h1, h2⟩ := ih h
        refine ⟨List.mem_append_left _ h1, ?_⟩
        rw [afterFirstRendered_append_of_mem p _ h1]
        exact List.mem_append_left _ h2
    | loaded =>
      obtain ⟨h1, h2⟩ := ih h
      refine ⟨List.mem_append_left _ h1, ?_⟩
      rw [afterFirstRendered_append_of_mem p _ h1]
      exact List.mem_append_left _ h2
    | saved saveAs =>
      obtain ⟨h1, h2⟩ := ih h
      refine ⟨List.mem_append_left _ h1, ?_⟩
      rw [afterFirstRendered_append_of_mem p _ h1]
      exact List.mem_append_left _ h2
    | errorEvt =>
      obtain ⟨h1, h2⟩ := ih h
      refine ⟨List.mem_append_left _ h1, ?_⟩
      rw [afterFirstRendered_append_of_mem p _ h1]
      exact List.mem_append_left _ h2

/-- A run logs ViewReport once when it starts before the initial load and a
rendered event occurs, and never otherwise. -/
theorem runEvents_count_viewReport (es : List ReportEvent) (s : HandlerState) :
    (runEvents s es).2.count Activity.ViewReport
      = if s.initialLoadComplete = false ∧ ReportEvent.rendered ∈ es then 1 else 0 := by
  induction es generalizing s with
  | nil => simp [runEvents]
  | cons e es ih =>
    simp only [runEvents]
    cases e with
    | loaded => simp [handleEvent, List.count_append, ih]
    | errorEvt => simp [handleEvent, List.count_append, ih]
    | saved saveAs =>
      cases saveAs <;> simp [handleEvent, List.count_append, ih, List.count_cons]
    | pageChanged =>
      cases hilc : s.initialLoadComplete <;>
        simp [handleEvent, hilc, List.count_append, ih]
    | rendered =>
      cases hilc : s.initialLoadComplete <;> cases hpc : s.pageChangeInProgress <;>
        simp [handleEvent, hilc, hpc, List.count_append, ih, List.count_cons]

/-- The first rendered event, seen from the pristine closure state, logs
exactly the ViewReport activity. -/
theorem handleEvent_first_rendered (s : HandlerState)
    (h1 : s.initialLoadComplete = false) (h2 : s.pageChangeInProgress = false) :
    handleEvent s ReportEvent.rendered
      = ({ initialLoadComplete := true, pageChangeInProgress := false },
         [Activity.ViewReport]) := by
  cases s with
  | mk a b =>
    simp only at h1 h2
    subst h1
    subst h2
    rfl

/-- PageChanged can only be logged by a rendered event arriving with
pageChangeInProgress set. -/
theorem pageChanged_emission (s : HandlerState) (e : ReportEvent)
    (h : Activity.PageChanged ∈ (handleEvent s e).2) :
    e = ReportEvent.rendered ∧ s.pageChangeInProgress = true := by
  cases e with
  | rendered =>
    refine ⟨rfl, ?_⟩
    by_contra hpc
    have hpc2 : s.pageChangeInProgress = false := by simpa using hpc
    cases hilc : s.initialLoadComplete <;>
      simp [handleEvent, hilc, hpc2] at h
  | loaded => simp [handleEvent] at h
  | pageChanged => cases hilc : s.initialLoadComplete <;> simp [handleEvent, hilc] at h
  | saved saveAs => cases saveAs <;> simp [handleEvent] at h
  | errorEvt => simp [handleEvent] at h

/-- PageChanged output implies a rendered event occurred, and once a
rendered event occurred the first render-logged activity is ViewReport. -/
theorem runEvents_order (es : List ReportEvent) :
    (Activity.PageChanged ∈ (runEvents initialHandlerState es).2 →
        ReportEvent.rendered ∈ es)
    ∧ (ReportEvent.rendered ∈ es →
        ((runEvents initialHandlerState es).2.filter isRenderLogged).head?
          = some Activity.ViewReport) := by
  induction es using List.reverseRecOn with
  | nil =>
    constructor
    · intro h; simp [runEvents] at h
    · intro h; cases h
  | append_singleton p e ih =>
    obtain ⟨ih1, ih2⟩ := ih
    constructor
    · intro h
      rw [runEvents_append] at h
      rcases List.mem_append.mp h with h1 | h1
      · exact List.mem_append_left _ (ih1 h1)
      · rw [runEvents_singleton_acts] at h1
        have he := (pageChanged_emission _ _ h1).1
        subst he
        exact List.mem_append_right _ (List.mem_singleton_self _)
    · intro h
      have hcases : ReportEvent.rendered ∈ p
          ∨ (ReportEvent.rendered ∉ p ∧ e = ReportEvent.rendered) := by
        by_cases hp : ReportEvent.rendered ∈ p
        · exact Or.inl hp
        · rcases List.mem_append.mp h with h1 | h1
          · exact absurd h1 hp
          · exact Or.inr ⟨hp, (List.mem_singleton.mp h1).symm⟩
      rw [runEvents_append]
      simp only [runEvents_singleton_acts, List.filter_append]
      rcases hcases with hp | ⟨hp, he2⟩
      · have hh := ih2 hp
        rcases hf : ((runEvents initialHandlerState p).2.filter isRenderLogged)
          with _ | ⟨a, t⟩
        · rw [hf] at hh; cases hh
        · rw [hf] at hh
          simp only [List.head?_cons, Option.some.injEq] at hh
          simp [hf, hh]
      · subst he2
        have hVR : Activity.ViewReport ∉ (runEvents initialHandlerState p).2 := by
          have hc := runEvents_count_viewReport p initialHandlerState
          rw [if_neg] at hc
          · exact List.count_eq_zero.mp hc
          · rintro ⟨-, hmem⟩; exact hp hmem
        have hPC : Activity.PageChanged ∉ (runEvents initialHandlerState p).2 :=
          fun hc => hp (ih1 hc)
        have hfil : (runEvents initialHandlerState p).2.filter isRenderLogged = [] := by
          apply List.filter_eq_nil_iff.mpr
          intro a ha
          cases a
          · exact absurd ha hVR
          · exact absurd ha hPC
          · simp [isRenderLogged]
          · simp [isRenderLogged]
          · simp [isRenderLogged]
        have hilc : (runEvents initialHandlerState p).1.initialLoadComplete = false := by
          have hi := runEvents_ilc initialHandlerState p
          simpa [initialHandlerState, hp] using hi
        have hpcip : (runEvents initialHandlerState p).1.pageChangeInProgress
            = false := by
          by_contra hc
          have hc2 : (runEvents initialHandlerState p).1.pageChangeInProgress = true :=
            by simpa using hc
          exact hp (runEvents_pcip_sound p hc2).1
        rw [hfil, handleEvent_first_rendered _ hilc hpcip]
        simp [isRenderLogged]

/-- C3: over any lifecycle-event trace of an embedded existing report,
ViewReport is logged exactly once and exactly when a rendered event occurs;
the first rendered event logs exactly ViewReport; PageChanged is logged only
by a rendered event whose pageChangeInProgress flag was armed, which
requires a pageChanged event after the first rendered event; and in the
logged output no PageChanged precedes the initial ViewReport. -/
theorem C3_view_and_page_logging (es : List ReportEvent) :
    ((runEvents initialHandlerState es).2.count Activity.ViewReport
        = if ReportEvent.rendered ∈ es then 1 else 0)
    ∧ (∀ p rest, es = p ++ ReportEvent.rendered :: rest → ReportEvent.rendered ∉ p →
        (handleEvent (runEvents initialHandlerState p).1 ReportEvent.rendered).2
          = [Activity.ViewReport])
    ∧ (∀ p e rest, es = p ++ e :: rest →
        Activity.PageChanged ∈ (handleEvent (runEvents initialHandlerState p).1 e).2 →
        e = ReportEvent.rendered
          ∧ ReportEvent.rendered ∈ p
          ∧ ReportEvent.pageChanged ∈ afterFirstRendered p)
    ∧ (Activity.PageChanged ∈ (runEvents initialHandlerState es).2 →
        ((runEvents initialHandlerState es).2.filter isRenderLogged).head?
          = some Activity.ViewReport) := by
  refine ⟨?_, ?_, ?_, ?_⟩
  · have hc := runEvents_count_viewReport es initialHandlerState
    simpa [initialHandlerState] using hc
  · intro p rest hsplit hnp
    have hilc : (runEvents initialHandlerState p).1.initialLoadComplete = false := by
      have hi := runEvents_ilc initialHandlerState p
      simpa [initialHandlerState, hnp] using hi
    have hpcip : (runEvents initialHandlerState p).1.pageChangeInProgress = false := by
      by_contra hcc
      have hc2 : (runEvents initialHandlerState p).1.pageChangeInProgress = true := by
        simpa using hcc
      exact hnp (runEvents_pcip_sound p hc2).1
    rw [handleEvent_first_rendered _ hilc hpcip]
  · intro p e rest hsplit hmem
    obtain ⟨he, hpc⟩ := pageChanged_emission _ _ hmem
    obtain ⟨h1, h2⟩ := runEvents_pcip_sound p hpc
    exact ⟨he, h1, h2⟩
  · intro h
    exact (runEvents_order es).2 ((runEvents_order es).1 h)

/-- C3 witness: on the trace loaded, rendered, pageChanged, rendered, the
handlers log ViewReport exactly once. -/
theorem C3_witness :
    (runEvents initialHandlerState
        [ReportEvent.loaded, ReportEvent.rendered, ReportEvent.pageChanged,
          ReportEvent.rendered]).2.count Activity.ViewReport = 1 := by
  have h := (C3_view_and_page_logging
      [ReportEvent.loaded, ReportEvent.rendered, ReportEvent.pageChanged,
        ReportEvent.rendered]).1
  rw [if_pos (by decide)] at h
  exact h

/-- C6 counterexample: an EditReport entry carries the empty correlation id
even when the SDK correlation id of the session is "abc", so not every
logged activity forwards the getCorrelationId value. -/
theorem C6_counterexample :
    (logEditReportActivity sampleAccount sampleEmbeddingData sampleReport).map
        ActivityLogEntry.CorrelationId ≠ Except.ok (some "abc")
      ∧ (logEditReportActivity sampleAccount sampleEmbeddingData sampleReport).map
        ActivityLogEntry.CorrelationId = Except.ok (some "") := by
  have h2 : (logEditReportActivity sampleAccount sampleEmbeddingData sampleReport).map
      ActivityLogEntry.CorrelationId = Except.ok (some "") := rfl
  refine ⟨?_, h2⟩
  rw [h2]
  intro h
  injection h with h3
  exact absurd h3 (by decide)

/-- C6 (amended): ViewReport and PageChanged entries built by the rendered
handler carry the correlation id passed in (the getCorrelationId value);
the paginated-report ViewReport entry and every EditReport entry carry the
empty string; CopyReport entries never assign CorrelationId, which stays
unset. -/
theorem C6_correlation_ids (account : AccountInfo) (ed : EmbeddingData)
    (sdkCorrelationId : String) (report : PowerBiReport) (pageName : String)
    (ld rd : Option Int) (reportId reportName : String) :
    (∀ e, logViewReportActivity account ed sdkCorrelationId report pageName ld rd
        = Except.ok e → e.CorrelationId = some sdkCorrelationId)
    ∧ (∀ e, logPageChangedActivity account ed sdkCorrelationId report pageName rd
        = Except.ok e → e.CorrelationId = some sdkCorrelationId)
    ∧ (∀ e, logViewReportActivity account ed "" report "" none none
        = Except.ok e → e.CorrelationId = some "")
    ∧ (∀ e, logEditReportActivity account ed report = Except.ok e →
        e.CorrelationId = some "")
    ∧ (∀ e, logCopyReportActivity account ed report reportId reportName
        = Except.ok e → e.CorrelationId = none) := by
  refine ⟨?_, ?_, ?_, ?_, ?_⟩
  · intro e he
    rcases hx : findDatasetFor ed.datasets report.datasetId with v | v <;>
      rw [logViewReportActivity, hx] at he <;> simp only [Except.map] at he
    · cases he
    · injection he with h2
      subst h2
      rfl
  · intro e he
    rcases hx : findDatasetFor ed.datasets report.datasetId with v | v <;>
      rw [logPageChangedActivity, hx] at he <;> simp only [Except.map] at he
    · cases he
    · injection he with h2
      subst h2
      rfl
  · intro e he
    rcases hx : findDatasetFor ed.datasets report.datasetId with v | v <;>
      rw [logViewReportActivity, hx] at he <;> simp only [Except.map] at he
    · cases he
    · injection he with h2
      subst h2
      rfl
  · intro e he
    rcases hx : findDatasetFor ed.datasets report.datasetId with v | v <;>
      rw [logEditReportActivity, hx] at he <;> simp only [Except.bind] at he
    · cases he
    · rcases hv : datasetName v with w | w <;>
        rw [hv] at he <;> simp only [Except.map] at he
      · cases he
      · injection he with h2
        subst h2
        rfl
  · intro e he
    rcases hx : findDatasetFor ed.datasets report.datasetId with v | v <;>
      rw [logCopyReportActivity, hx] at he <;> simp only [Except.bind] at he
    · cases he
    · rcases hv : datasetName v with w | w <;>
        rw [hv] at he <;> simp only [Except.map] at he
      · cases he
      · injection he with h2
        subst h2
        rfl

/-- C6 witness: a ViewReport entry built with the SDK correlation id "abc"
carries exactly that id. -/
theorem C6_witness :
    (logViewReportActivity sampleAccount sampleEmbeddingData "abc" sampleReport
        "Page 1" (some 100) (some 200)).map ActivityLogEntry.CorrelationId
      = Except.ok (some "abc") := by
  have h := (C6_correlation_ids sampleAccount sampleEmbeddingData "abc" sampleReport
      "Page 1" (some 100) (some 200) "rid" "rname").1
  obtain ⟨e, he⟩ : ∃ e, logViewReportActivity sampleAccount sampleEmbeddingData "abc"
      sampleReport "Page 1" (some 100) (some 200) = Except.ok e := ⟨_, rfl⟩
  rw [he]
  simp only [Except.map]
  rw [h e he]

end AppOwnsData
